import Mathlib

/-!
Verification of the affiliate-marketing automation engine.

Shallow embedding of the Python sources (`utils.py`, `aws_service.py`,
`media_service.py`, `llm_service.py`, `channel.py`, `pinterest_service.py`,
`wordpress_service.py`, `affiliate_program_service.py`, `affiliate_program.py`).
External effects (S3 reads/writes, HTTP provider calls, the LLM) are passed in
as explicit oracle arguments; Python strings are Lean `String`s (both sequences
of unicode code points, so `len`/slicing agree), and Python's substring operator
`in` is list-infix on `String.data`.
-/

set_option autoImplicit false

namespace AffiliateAutomation

/-- A Python exception value, identified by its message. -/
structure PyErr where
  msg : String
deriving DecidableEq, Repr

/-- Python's substring test `needle in haystack` for `str` operands:
the needle's character sequence occurs contiguously in the haystack's. -/
def py_in (needle haystack : String) : Prop :=
  needle.data <:+: haystack.data

instance py_in.decide (n h : String) : Decidable (py_in n h) := by
  unfold py_in; infer_instance

/-! ## Data model (`all_types.py`) -/

/-- `all_types.AffiliateLink` (the dataclass fields the engine reads). -/
structure AffiliateLink where
  url : String
  product_title : String
  categories : List String
  thumbnail_url : Option String := none
deriving DecidableEq, Repr

/-- `all_types.UsedLink`. -/
structure UsedLink where
  url : String
  post_id : Option String := none
deriving DecidableEq, Repr

/-! ## `aws_service.py` — the ledger's backing blob store

The `used_affiliate_links` S3 object is modelled by its decoded JSON content
`Option (List String)` (`none` = object absent).  `json.dumps`/`json.loads`
of a list of strings are mutually inverse, so the model stores the decoded
list directly. -/

namespace AWSService

/-- `AWSService.add_used_affiliate_links` (aws_service.py:180-191):
`content = json.dumps(links)` (never empty, always valid JSON, so
`upload_string_to_s3`'s empty-content and invalid-JSON guards never fire)
followed by a single `put_object` that replaces the blob.  `put_ok` is the
outcome of the PUT; on failure the store is unchanged and `False` is
returned. -/
def add_used_affiliate_links (links : List String) (put_ok : Bool)
    (store : Option (List String)) : Bool × Option (List String) :=
  if put_ok then (true, some links) else (false, store)

end AWSService

/-! ## `media_service.py` — the usage ledger -/

namespace MediaService

/-- `MediaService.get_formatted_link` (media_service.py:147-156):
`f"{url}"`, plus `f" - {post_id}"` when `post_id` is truthy. -/
def get_formatted_link (url : String) (post_id : Option String) : String :=
  let formatted_link := url
  match post_id with
  | some pid => if pid ≠ "" then formatted_link ++ " - " ++ pid else formatted_link
  | none => formatted_link

/-- `MediaService.add_used_affiliate_links` (media_service.py:128-145):
returns early on an empty batch, otherwise formats each `UsedLink` and hands
the formatted list to `AWSService.add_used_affiliate_links`. -/
def add_used_affiliate_links (used_links : List UsedLink) (put_ok : Bool)
    (store : Option (List String)) : Option (List String) :=
  if used_links = [] then store
  else
    (AWSService.add_used_affiliate_links
      (used_links.map fun link => get_formatted_link link.url link.post_id)
      put_ok store).2

/-- The Python value returned by `MediaService.get_unused_affiliate_links`:
either a list of links, or the literal `False` produced by its `except`
branch. -/
inductive GetUnusedResult where
  | links (l : List AffiliateLink)
  | pyFalse
deriving DecidableEq, Repr

/-- `MediaService.get_unused_affiliate_links` (media_service.py:158-191).
`load` is the outcome of `self.aws_service.get_used_affiliate_links()`
(`.error` = that call raised).  Empty candidates short-circuit to `[]`;
an empty/falsy used list short-circuits to the unfiltered candidates; a
raising load hits `except Exception: ... return False`; otherwise a candidate
is kept iff its formatted url is a substring (`in`) of no stored entry. -/
def get_unused_affiliate_links (affiliate_links : List AffiliateLink)
    (load : Except PyErr (List String)) : GetUnusedResult :=
  if affiliate_links = [] then .links []
  else
    match load with
    | .error _ => .pyFalse
    | .ok used_links =>
      if used_links = [] then .links affiliate_links
      else
        .links (affiliate_links.filter fun link =>
          ! used_links.any fun used_link =>
            decide (py_in (get_formatted_link link.url none) used_link))

/-- The candidate list carried by a `GetUnusedResult`, `[]` for `False`. -/
def GetUnusedResult.toLinks : GetUnusedResult → List AffiliateLink
  | .links l => l
  | .pyFalse => []

end MediaService

/-! ## `utils.py` — the retry/backoff wrapper -/

namespace Utils

/-- What a `get_with_retry`-wrapped call produced. -/
inductive RetryOutcome (α : Type) where
  /-- the wrapped function returned `v` -/
  | ok (v : α)
  /-- an exception propagated to the caller -/
  | raised (e : PyErr)
  /-- the configured `error_response` was returned after exhausting retries -/
  | fallback (v : α)
  /-- the trailing `raise RuntimeError` (reachable only for `max_retries = 0`) -/
  | runtimeError
deriving DecidableEq, Repr

/-- Observable behaviour of one wrapped invocation: its outcome, how many
times the wrapped function was called, and the delays slept between calls. -/
structure RetryTrace (α : Type) where
  outcome : RetryOutcome α
  calls : Nat
  delays : List ℚ
deriving DecidableEq, Repr

/-- The `while attempt < max_retries` loop of `get_with_retry.decorator.wrapper`
(utils.py:66-105).  `call k` is the result of the `k`-th invocation of the
wrapped function (the loop enters iteration with `attempt` = number of
failures so far, so the invocation there is `call attempt`); `retryable e`
states whether `e` matches `retry_on_exceptions` (a non-matching exception
propagates immediately); `jitter a` is the `random.uniform(0, 1)` sample drawn
while the failure counter equals `a`.  The delay mirrors
`min(initial_delay * (2 ** (attempt - 1)) + random.uniform(0, 1), max_delay)`
computed after `attempt += 1`. -/
def retry_loop {α : Type} (max_retries : Nat) (initial_delay max_delay : ℚ)
    (retryable : PyErr → Bool) (error_response : Option α)
    (jitter : Nat → ℚ) (call : Nat → Except PyErr α) (attempt : Nat) :
    RetryTrace α :=
  if _h : attempt < max_retries then
    match call attempt with
    | .ok v => { outcome := .ok v, calls := attempt + 1, delays := [] }
    | .error e =>
      if retryable e then
        if attempt + 1 ≥ max_retries then
          match error_response with
          | some r => { outcome := .fallback r, calls := attempt + 1, delays := [] }
          | none => { outcome := .raised e, calls := attempt + 1, delays := [] }
        else
          let delay := min (initial_delay * 2 ^ ((attempt + 1) - 1) + jitter (attempt + 1))
            max_delay
          let rest := retry_loop max_retries initial_delay max_delay retryable
            error_response jitter call (attempt + 1)
          { outcome := rest.outcome, calls := rest.calls, delays := delay :: rest.delays }
      else { outcome := .raised e, calls := attempt + 1, delays := [] }
  else { outcome := .runtimeError, calls := attempt, delays := [] }
termination_by max_retries - attempt

/-- `utils.get_with_retry(...)` applied to a wrapped call: the loop starts at
`attempt = 0`. -/
def get_with_retry {α : Type} (max_retries : Nat) (initial_delay max_delay : ℚ)
    (retryable : PyErr → Bool) (error_response : Option α)
    (jitter : Nat → ℚ) (call : Nat → Except PyErr α) : RetryTrace α :=
  retry_loop max_retries initial_delay max_delay retryable error_response jitter call 0

/-- The keyword parameters `utils.get_with_retry` declares (utils.py:43-49).
A Python call passing any other keyword raises `TypeError` at call time. -/
def get_with_retry_keywords : List String :=
  ["max_retries", "initial_delay", "max_delay", "retry_on_exceptions", "error_response"]

end Utils

/-! ## Theorems for claims C2, C3, C9 -/

/-- **C2, counterexample.**  The claim says a successful `UsageLedger` commit
serializes the existing ledger content plus the new records.  It does not:
with the blob holding `["http://x/a"]`, committing the single new record
`http://x/b` overwrites the blob with `["http://x/b"]` alone — the previously
recorded entry `"http://x/a"` is gone. -/
theorem C2_counterexample :
    MediaService.add_used_affiliate_links [{ url := "http://x/b" }] true
        (some ["http://x/a"]) = some ["http://x/b"]
    ∧ "http://x/a" ∉ ["http://x/b"] := by
  exact ⟨rfl, by decide⟩

/-- **C2, amended.**  After a successful commit of a non-empty batch, the
persisted blob contains exactly the newly committed formatted records, written
in a single PUT; previously recorded entries are not merged in and are lost
unless re-passed by the caller. -/
theorem C2_amended (used_links : List UsedLink) (store : Option (List String))
    (hne : used_links ≠ []) :
    MediaService.add_used_affiliate_links used_links true store
      = some (used_links.map fun link =>
          MediaService.get_formatted_link link.url link.post_id) := by
  simp [MediaService.add_used_affiliate_links, hne, AWSService.add_used_affiliate_links]

/-- **C2, amended — witness.**  The amended statement at the counterexample's
input: the blob after the commit is exactly the new record. -/
theorem C2_amended_witness :
    MediaService.add_used_affiliate_links [{ url := "http://x/b" }] true
        (some ["http://x/a"]) = some ["http://x/b"] :=
  C2_amended [{ url := "http://x/b" }] (some ["http://x/a"]) (by decide)

/-- **C3, code evaluation (code bug).**  The claim (and the function's own
`-> list[AffiliateLink]` annotation) says a raising ledger load makes
`get_unused_affiliate_links` return the candidate list unchanged.  The code's
`except` branch instead executes `return False`: at a one-candidate input with
a raising load the function returns the Python bool `False`, not the
candidates. -/
theorem C3_code_eval :
    MediaService.get_unused_affiliate_links
        [{ url := "http://x/a", product_title := "p", categories := ["c"] }]
        (.error { msg := "S3 read raised" })
      = .pyFalse
    ∧ MediaService.GetUnusedResult.pyFalse
        ≠ .links [{ url := "http://x/a", product_title := "p", categories := ["c"] }] := by
  exact ⟨rfl, by decide⟩

/-- **C9 (implicit), confirmed.**  Dedup membership is a substring test, not
equality: a candidate is dropped iff its formatted url occurs as a substring
of some stored entry.  Concretely, the never-recorded url `"http://x/a"` is
filtered out because the ledger holds `"http://x/ab"`. -/
theorem C9_substring_dedup :
    MediaService.get_unused_affiliate_links
        [{ url := "http://x/a", product_title := "p", categories := ["c"] }]
        (.ok ["http://x/ab"]) = .links []
    ∧ ∀ (links : List AffiliateLink) (used : List String) (l : AffiliateLink),
        l ∈ (MediaService.get_unused_affiliate_links links (.ok used)).toLinks
          ↔ l ∈ links ∧ ∀ u ∈ used, ¬ py_in (MediaService.get_formatted_link l.url none) u := by
  constructor
  · decide
  · intro links used l
    unfold MediaService.get_unused_affiliate_links
    by_cases hl : links = []
    · simp [hl, MediaService.GetUnusedResult.toLinks]
    · by_cases hu : used = []
      · simp [hl, hu, MediaService.GetUnusedResult.toLinks]
      · simp only [hl, hu, if_neg, if_false]
        simp [MediaService.GetUnusedResult.toLinks, List.mem_filter, hl, hu]

/-! ## `llm_service.py` and `channel.py` — text generation and title fallback -/

namespace LlmService

/-- `enums.LlmErrorPrompt.QUOTA_EXCEEDED`. -/
def QUOTA_EXCEEDED : String := "insufficient credits"

/-- `enums.LlmErrorPrompt.LENGTH_EXCEEDED`. -/
def LENGTH_EXCEEDED : String := "total length exceeded"

/-- `LlmService.generate_text` (llm_service.py:35-46).  `provider` is the
outcome of the chat create/append/sample round trip.
`_get_response_content` raises when an in-band error sentinel occurs in the
lowercased content (raising the non-exception enum member itself raises
`TypeError`, equally an exception), and `generate_text`'s blanket `except`
only logs and falls off the end of the function — so every provider error
produces the implicit return value `None`, despite the `-> str` annotation. -/
def generate_text (provider : Except PyErr String) : Option String :=
  match provider with
  | .error _ => none
  | .ok content =>
    if decide (py_in QUOTA_EXCEEDED content.toLower)
        || decide (py_in LENGTH_EXCEEDED content.toLower) then none
    else some content

end LlmService

namespace Channel

/-- `Channel.DISCLOSURE` (channel.py:14). -/
def DISCLOSURE : String :=
  "Disclosure: We earn a commission at no extra cost to you if you make a purchase through links here. This helps support us in creating more content for you. Thank you for your support!"

/-- `Channel.get_title` (channel.py:64-115) for a given link's `categories`.
`provider k` is the LLM round trip of the `k`-th (recursive) call.  The value
is the Python return (`none` = the Python `None`); `.error` models an
exception escaping `get_title`, possible only when `categories` is empty so
that the fallback `f"{affiliate_link.categories[0]}"` itself raises
`IndexError`.  When `generate_text` returns `None` and `category_titles` is
truthy, `LlmErrorPrompt.LENGTH_EXCEEDED in title` raises `TypeError`, which
the `except` catches, producing the `categories[0]` fallback; with
`category_titles` empty the conjunction short-circuits and the `None` title
is returned as-is. -/
def get_title (categories : List String) (category_titles : List String)
    (provider : Nat → Except PyErr String) (call : Nat) :
    Except PyErr (Option String) :=
  match LlmService.generate_text (provider call) with
  | none =>
    if category_titles = [] then .ok none
    else
      match categories with
      | [] => .error { msg := "IndexError: list index out of range" }
      | c :: _ => .ok (some c)
  | some title =>
    if h : category_titles ≠ [] ∧ py_in LlmService.LENGTH_EXCEEDED title then
      get_title categories category_titles.dropLast provider (call + 1)
    else .ok (some title)
termination_by category_titles.length
decreasing_by
  have hpos : 0 < category_titles.length := List.length_pos.2 h.1
  simp only [List.length_dropLast]
  omega

end Channel

/-! ## Theorem for claim C7 -/

/-- **C7, code evaluation (code bug).**  The claim (and spec §4.3's required
fallback) says a raising LLM call during title generation with
`categories=["Home"]` yields the composed title `"Home"`.  It does not:
`LlmService.generate_text` swallows the provider exception and returns `None`,
so `Channel.get_title` (with its default empty `category_titles`) returns
`None` — the `categories[0]` fallback branch is never reached. -/
theorem C7_code_eval :
    Channel.get_title ["Home"] [] (fun _ => .error { msg := "LLM API down" }) 0
      = .ok none
    ∧ (Except.ok none : Except PyErr (Option String)) ≠ .ok (some "Home") := by
  constructor
  · rw [Channel.get_title]
    norm_num [LlmService.generate_text]
  · simp

/-! ## The disclosure renderers (`pinterest_service.py`, `wordpress_service.py`) -/

namespace PyStr

/-- Python's `str.strip()` (strip whitespace at both ends), on code points. -/
def strip (s : List Char) : List Char :=
  ((s.dropWhile Char.isWhitespace).reverse.dropWhile Char.isWhitespace).reverse

/-- Python's `str.rstrip()`. -/
def rstrip (s : List Char) : List Char :=
  (s.reverse.dropWhile Char.isWhitespace).reverse

theorem dropWhile_length_le {α : Type} (p : α → Bool) (l : List α) :
    (l.dropWhile p).length ≤ l.length := by
  induction l with
  | nil => simp
  | cons a t ih =>
    rw [List.dropWhile_cons]
    split
    · exact Nat.le_succ_of_le ih
    · exact le_rfl

theorem rstrip_length_le (s : List Char) : (rstrip s).length ≤ s.length := by
  unfold rstrip
  rw [List.length_reverse]
  calc (s.reverse.dropWhile Char.isWhitespace).length
      ≤ s.reverse.length := dropWhile_length_le _ _
    _ = s.length := List.length_reverse s

theorem strip_length_le (s : List Char) : (strip s).length ≤ s.length := by
  unfold strip
  rw [List.length_reverse]
  calc ((s.dropWhile Char.isWhitespace).reverse.dropWhile Char.isWhitespace).length
      ≤ (s.dropWhile Char.isWhitespace).reverse.length := dropWhile_length_le _ _
    _ = (s.dropWhile Char.isWhitespace).length := List.length_reverse _
    _ ≤ s.length := dropWhile_length_le _ _

end PyStr

namespace PinterestService

/-- Pinterest's 500-character pin-description limit
(pinterest_service.py:735). -/
def MAX_LENGTH : Nat := 500

/-- The description-level disclosure `f"\n#affiliate {self.DISCLOSURE}"`
(pinterest_service.py:736). -/
def PIN_DISCLOSURE : List Char := ("\n#affiliate " ++ Channel.DISCLOSURE).data

/-- `PinterestService.get_pin_description` (pinterest_service.py:724-776), on
code points.  `gen` is the `generate_text` result: when it is the Python
`None`, the immediate `.strip()` call raises `AttributeError` and the `except`
branch builds the fallback description from the title; either way the final
value is sliced to 500 code points. -/
def get_pin_description (title : List Char) (gen : Option (List Char)) : List Char :=
  let DISCLOSURE := PIN_DISCLOSURE
  let available_length := MAX_LENGTH - DISCLOSURE.length
  match gen with
  | some g =>
    let generated_description := PyStr.strip g
    let generated_description :=
      if available_length < generated_description.length then
        PyStr.rstrip (generated_description.take available_length)
      else generated_description
    let full_description := generated_description ++ DISCLOSURE
    full_description.take MAX_LENGTH
  | none =>
    let fallback := "Discover the latest trends in ".data
      ++ PyStr.strip (title.takeWhile fun c => c ≠ '#')
      ++ " to inspire your next purchase! #affiliate ".data
      ++ Channel.DISCLOSURE.data
    fallback.take MAX_LENGTH

end PinterestService

namespace WordpressService

/-- `WordpressService.get_post_content` (wordpress_service.py:1177-1235).
`gen` is the LLM result for the post prompt — the Python `None` makes
`content += …` raise `TypeError`, and every exception in the `try` is caught,
returning `""`.  `wordpress_content`, `video_ids` and `video_urls` are the
extra fields of the `AffiliateLink` dataclass variant this service consumes
(modelled from the spec's "optional call-to-action fields": that dataclass
snapshot is not under src/ — src/all_types.py lacks the fields, so attribute
access is abstracted as these arguments).  `cta_content` and
`social_media_content` are the outputs of `self._get_cta_content` and
`self._get_social_media_content`. -/
def get_post_content (gen : Option String)
    (wordpress_content : Option String) (video_ids video_urls : List String)
    (cta_content social_media_content : String) : String :=
  match gen with
  | none => ""
  | some generated =>
    let content := generated
    let content := match wordpress_content with
      | some wc => if wc ≠ "" then content ++ "\n\n" ++ wc else content
      | none => content
    let content := content ++ String.join (video_ids.map fun id =>
      "\n\n[video id=\"" ++ id ++ "\"]")
    let content := content ++ String.join (video_urls.map fun u =>
      "\n\n<video controls style=\"max-width: 100%; height: auto; display: block;\"><source src=\"" ++ u ++ "\" type=\"video/mp4\">Your browser does not support the video tag.</video>")
    let content := content ++ cta_content
    let content := content ++ "\n\n<small>" ++ Channel.DISCLOSURE ++ "</small>"
    let content := content ++ "\n\n" ++ social_media_content
    content

end WordpressService

/-! ## Theorems for claim C8 -/

/-- Generic containment of a block in a left-associated six-part
concatenation, matching the shape `get_post_content` builds. -/
theorem py_in_chain (d a s1 s2 s3 s4 : String) :
    py_in d (a ++ s1 ++ d ++ s2 ++ s3 ++ s4) := by
  unfold py_in
  simp only [String.data_append, List.append_assoc]
  simpa [List.append_assoc] using
    List.infix_append (a.data ++ s1.data) d.data (s2.data ++ (s3.data ++ s4.data))

set_option maxRecDepth 8000 in
/-- **C8, counterexample.**  The claim says the disclosure string appears
verbatim and untruncated in every rendered monetized content, including the
error-fallback paths.  On the Pinterest fallback path the disclosure is
appended *before* the 500-character slice: with a 470-character title and a
failing generator the slice cuts the disclosure off entirely. -/
theorem C8_counterexample :
    ¬ Channel.DISCLOSURE.data <:+:
        PinterestService.get_pin_description (List.replicate 470 'a') none := by
  have htw : (List.replicate 470 'a').takeWhile (fun c => c ≠ '#')
      = List.replicate 470 'a' :=
    List.takeWhile_eq_self_iff.2 fun x hx => by
      rw [List.eq_of_mem_replicate hx]; decide
  have hdrop : ∀ n : Nat, (List.replicate n 'a').dropWhile Char.isWhitespace
      = List.replicate n 'a' := fun n =>
    List.dropWhile_eq_self_iff.2 fun hl => by
      rw [List.get_replicate]; decide
  have hstrip : PyStr.strip (List.replicate 470 'a') = List.replicate 470 'a' := by
    unfold PyStr.strip
    rw [hdrop, List.reverse_replicate, hdrop, List.reverse_replicate]
  have hres : PinterestService.get_pin_description (List.replicate 470 'a') none
      = "Discover the latest trends in ".data ++ List.replicate 470 'a' := by
    unfold PinterestService.get_pin_description
    dsimp only
    rw [htw, hstrip, List.append_assoc]
    exact List.take_left' (by rw [List.length_append, List.length_replicate]; decide)
  intro hinf
  have hk := hinf.subset (show 'k' ∈ Channel.DISCLOSURE.data by decide)
  rw [hres] at hk
  rcases List.mem_append.1 hk with h | h
  · exact absurd h (by decide)
  · exact absurd (List.eq_of_mem_replicate h) (by decide)

set_option maxRecDepth 8000 in
/-- The Pinterest fallback text fits the 500-character slice whenever the
stripped pre-`#` title segment has at most 244 characters
(30 + 244 + 43 + 183 = 500). -/
theorem fallback_length_le (X : List Char) (h : X.length ≤ 244) :
    ("Discover the latest trends in ".data ++ X
      ++ " to inspire your next purchase! #affiliate ".data
      ++ Channel.DISCLOSURE.data).length ≤ PinterestService.MAX_LENGTH := by
  rw [List.length_append, List.length_append, List.length_append]
  have h1 : ("Discover the latest trends in ".data).length = 30 := rfl
  have h2 : (" to inspire your next purchase! #affiliate ".data).length = 43 := rfl
  have h3 : (Channel.DISCLOSURE.data).length = 183 := rfl
  have h4 : PinterestService.MAX_LENGTH = 500 := rfl
  omega

set_option maxRecDepth 8000 in
/-- **C8, amended.**  The disclosure appears verbatim in the WordPress post
body whenever generation succeeds (the error path returns the empty string,
publishing no disclosure and no content), and in the Pinterest pin
description on the success path unconditionally — the generated part is
budgeted to `500 - len(disclosure)` first — but on the error-fallback path
only when the stripped pre-`#` title segment keeps the fallback within the
500-character slice (segment length ≤ 244); longer titles truncate the
disclosure away. -/
theorem C8_amended :
    (∀ title g : List Char,
        Channel.DISCLOSURE.data <:+: PinterestService.get_pin_description title (some g))
    ∧ (∀ title : List Char,
        (PyStr.strip (title.takeWhile fun c => c ≠ '#')).length ≤ 244 →
        Channel.DISCLOSURE.data <:+: PinterestService.get_pin_description title none)
    ∧ (∀ (generated : String) (wordpress_content : Option String)
        (video_ids video_urls : List String) (cta_content social_media_content : String),
        py_in Channel.DISCLOSURE
          (WordpressService.get_post_content (some generated) wordpress_content
            video_ids video_urls cta_content social_media_content))
    ∧ (∀ (wordpress_content : Option String) (video_ids video_urls : List String)
        (cta_content social_media_content : String),
        WordpressService.get_post_content none wordpress_content video_ids video_urls
          cta_content social_media_content = "") := by
  have hdisc_len : PinterestService.PIN_DISCLOSURE.length = 195 := by decide
  have hdisc_split : PinterestService.PIN_DISCLOSURE
      = "\n#affiliate ".data ++ Channel.DISCLOSURE.data := by
    rw [PinterestService.PIN_DISCLOSURE, String.data_append]
  refine ⟨?_, ?_, ?_, ?_⟩
  · intro title g
    unfold PinterestService.get_pin_description
    dsimp only
    rw [hdisc_len]
    set g1 := PyStr.strip g with hg1
    have hlen : (if PinterestService.MAX_LENGTH - 195 < g1.length then
        PyStr.rstrip (g1.take (PinterestService.MAX_LENGTH - 195)) else g1).length
        ≤ PinterestService.MAX_LENGTH - 195 := by
      split
      · calc (PyStr.rstrip (g1.take (PinterestService.MAX_LENGTH - 195))).length
            ≤ (g1.take (PinterestService.MAX_LENGTH - 195)).length :=
              PyStr.rstrip_length_le _
          _ ≤ PinterestService.MAX_LENGTH - 195 := by
              rw [List.length_take]; exact min_le_left _ _
      · omega
    rw [List.take_of_length_le]
    · rw [hdisc_split, ← List.append_assoc]
      exact List.IsSuffix.isInfix (List.suffix_append _ _)
    · rw [List.length_append, hdisc_len]
      have : PinterestService.MAX_LENGTH = 500 := rfl
      omega
  · intro title hfit
    unfold PinterestService.get_pin_description
    dsimp only
    rw [List.take_of_length_le]
    · exact List.IsSuffix.isInfix (List.suffix_append _ _)
    · exact fallback_length_le _ hfit
  · intro generated wc vi vu cta social
    unfold WordpressService.get_post_content
    dsimp only
    exact py_in_chain _ _ _ _ _ _
  · intro wc vi vu cta social
    rfl

/-- **C8, amended — witness.**  The fallback path keeps the disclosure for a
short title. -/
theorem C8_amended_witness :
    Channel.DISCLOSURE.data <:+:
      PinterestService.get_pin_description "fashion".data none :=
  C8_amended.2.1 "fashion".data (by decide)

/-! ## The publish orchestrators (`affiliate_program_service.py`, `affiliate_program.py`) -/

/-- The spec's `UsedLinkRecord`: a persisted used-link fact with an optional
channel content id. -/
structure UsedLinkRecord where
  url : String
  channelContentId : Option String
deriving DecidableEq, Repr

namespace AffiliateProgramService

/-- Whether a `channel.create` call returned a created-content identifier
(`.ok`) rather than raising. -/
def is_created : Except PyErr String → Bool
  | .ok _ => true
  | .error _ => false

/-- Modelled from the spec: `MediaService.add_affiliate_link`, invoked at
affiliate_program_service.py:80 but absent from src/'s `media_service.py`
(the repository ships inconsistent snapshots).  Spec §4.5: the orchestrator
"appends a `UsedLinkRecord` for this link"; the call site passes only
`link.url`, so the appended record can carry no channel content id. -/
def add_affiliate_link (url : String) (ledger : List UsedLinkRecord) :
    List UsedLinkRecord :=
  ledger ++ [{ url := url, channelContentId := none }]

/-- Observable effects of processing one link in
`AffiliateProgramService.execute_cron`'s per-link loop. -/
structure LinkRunTrace where
  /-- channel indices on which `channel.create` was invoked -/
  channels_attempted : List Nat
  /-- channel indices whose `create` raised (caught and logged, line 75-78) -/
  channel_errors_logged : List Nat
  /-- successful creates as (channel index, content id) -/
  content_ids_created : List (Nat × String)
  /-- records written through `media_service.add_affiliate_link` (line 80) -/
  ledger_writes : List UsedLinkRecord
  /-- exception caught by the outer per-link handler (line 81-82) -/
  link_error_logged : Option PyErr
deriving DecidableEq, Repr

/-- One iteration of the per-link loop of
`AffiliateProgramService.execute_cron` (affiliate_program_service.py:58-82).
`compose` is the combined outcome of `self.get_title(link)` and
`self.media_service.get_image_urls(...)`; `channel_results` gives, per
configured channel in order, what its `create` call did.  Every channel is
attempted (inner `try` swallows each channel's exception), and afterwards the
used-link write runs unconditionally; only a raising composition skips the
link (outer `try`). -/
def process_link (link_url : String)
    (compose : Except PyErr (String × List String))
    (channel_results : List (Except PyErr String)) : LinkRunTrace :=
  match compose with
  | .error e =>
    { channels_attempted := [], channel_errors_logged := [],
      content_ids_created := [], ledger_writes := [], link_error_logged := some e }
  | .ok _ =>
    { channels_attempted := channel_results.enum.map Prod.fst
      channel_errors_logged :=
        (channel_results.enum.filter fun p => ! is_created p.2).map Prod.fst
      content_ids_created := channel_results.enum.filterMap fun p =>
        match p.2 with
        | .ok content_id => some (p.1, content_id)
        | .error _ => none
      ledger_writes := add_affiliate_link link_url []
      link_error_logged := none }

end AffiliateProgramService

namespace AffiliateProgram

/-- The per-channel `created_link_urls` accumulator of
`AffiliateProgram.execute_cron` (affiliate_program.py:86-114): per link the
`channel.create` outcome is either a raise (caught and logged, line 109-112),
a falsy return (`""`/`None`, not appended), or a truthy
`CreateChannelResponse` whose url is appended. -/
def created_link_urls
    (link_results : List (String × Except PyErr (Option String))) : List String :=
  (link_results.filter fun p =>
    match p.2 with
    | .ok (some _) => true
    | _ => false).map Prod.fst

/-- Modelled from the spec: `MediaService.add_affiliate_links(channel_name=…,
urls=…)`, invoked at affiliate_program.py:116-118 but absent from src/'s
`media_service.py`.  Spec §4.2 `commit`: one used-link record per committed
url; the call passes plain urls, so no content id is recorded. -/
def add_affiliate_links (urls : List String) : List UsedLinkRecord :=
  urls.map fun u => { url := u, channelContentId := none }

/-- What one channel iteration of `AffiliateProgram.execute_cron` commits:
exactly the urls whose `create` returned a truthy response. -/
def channel_commits
    (link_results : List (String × Except PyErr (Option String))) :
    List UsedLinkRecord :=
  add_affiliate_links (created_link_urls link_results)

end AffiliateProgram

/-! ## Theorems for claims C1, C4 -/

/-- **C1, counterexample.**  The claim says no ledger write occurs for a link
when every configured channel's attempt fails.  In
`AffiliateProgramService.execute_cron` the write is unconditional: with both
channels raising, no created-content id exists, yet the used-link record is
still written. -/
theorem C1_counterexample :
    (AffiliateProgramService.process_link "http://x/1" (.ok ("Cozy Homes", []))
        [.error { msg := "wordpress 500" }, .error { msg := "pinterest 429" }]).content_ids_created
      = []
    ∧ (AffiliateProgramService.process_link "http://x/1" (.ok ("Cozy Homes", []))
        [.error { msg := "wordpress 500" }, .error { msg := "pinterest 429" }]).ledger_writes
      = [{ url := "http://x/1", channelContentId := none }] :=
  ⟨rfl, rfl⟩

/-- **C1, amended.**  In `AffiliateProgramService.execute_cron` a used-link
record is written for a processed link iff its composition (title + image
fetch) succeeded — channel outcomes never influence the write, which happens
even when every channel fails.  In `AffiliateProgram.execute_cron` commits are
per channel: a url is committed for a channel iff that channel's `create`
returned a truthy response for it. -/
theorem C1_amended :
    (∀ (url : String) (compose : Except PyErr (String × List String))
        (channel_results : List (Except PyErr String)),
      (AffiliateProgramService.process_link url compose channel_results).ledger_writes
        = match compose with
          | .ok _ => [{ url := url, channelContentId := none }]
          | .error _ => [])
    ∧ ∀ (link_results : List (String × Except PyErr (Option String))) (u : String),
        u ∈ AffiliateProgram.created_link_urls link_results
          ↔ ∃ response_id, (u, Except.ok (some response_id)) ∈ link_results := by
  constructor
  · intro url compose channel_results
    cases compose with
    | error e => rfl
    | ok v => rfl
  · intro link_results u
    unfold AffiliateProgram.created_link_urls
    constructor
    · intro h
      rw [List.mem_map] at h
      obtain ⟨p, hp, hpu⟩ := h
      rw [List.mem_filter] at hp
      obtain ⟨hmem, hpred⟩ := hp
      obtain ⟨pu, pr⟩ := p
      cases pr with
      | error e => simp at hpred
      | ok o =>
        cases o with
        | none => simp at hpred
        | some response_id =>
          exact ⟨response_id, by simpa [← hpu] using hmem⟩
    · rintro ⟨response_id, hmem⟩
      rw [List.mem_map]
      exact ⟨(u, Except.ok (some response_id)),
        List.mem_filter.2 ⟨hmem, rfl⟩, rfl⟩

/-- **C4, counterexample.**  With channels `[A, B]` where A raises and B
succeeds, B is attempted, the link is committed and A's failure is only
logged — but the claim also says B's content id is recorded, and it is not:
the commit call passes only `link.url`, so the written record carries no
content id at all. -/
theorem C4_counterexample :
    1 ∈ (AffiliateProgramService.process_link "http://x/1" (.ok ("t", ["img"]))
        [.error { msg := "A down" }, .ok "B123"]).channels_attempted
    ∧ (AffiliateProgramService.process_link "http://x/1" (.ok ("t", ["img"]))
        [.error { msg := "A down" }, .ok "B123"]).content_ids_created = [(1, "B123")]
    ∧ (AffiliateProgramService.process_link "http://x/1" (.ok ("t", ["img"]))
        [.error { msg := "A down" }, .ok "B123"]).ledger_writes
      = [{ url := "http://x/1", channelContentId := none }]
    ∧ ∀ rec ∈ (AffiliateProgramService.process_link "http://x/1" (.ok ("t", ["img"]))
        [.error { msg := "A down" }, .ok "B123"]).ledger_writes,
        rec.channelContentId ≠ some "B123" := by
  refine ⟨by decide, rfl, rfl, ?_⟩
  intro rec hrec
  simp only [AffiliateProgramService.process_link, AffiliateProgramService.add_affiliate_link,
    List.nil_append, List.mem_singleton] at hrec
  rw [hrec]
  decide

/-- **C4, amended.**  Given channels `[A, B]` where A's publish raises and B's
succeeds, B is still attempted, B's created content id is logged, the link is
committed with only its url (the ledger record carries no content id), and A's
exception is caught and logged inside the per-channel loop, never propagated
(the outer per-link handler records nothing). -/
theorem C4_amended (url title errA contentIdB : String) (imgs : List String) :
    (AffiliateProgramService.process_link url (.ok (title, imgs))
        [.error { msg := errA }, .ok contentIdB]).channels_attempted = [0, 1]
    ∧ (AffiliateProgramService.process_link url (.ok (title, imgs))
        [.error { msg := errA }, .ok contentIdB]).content_ids_created = [(1, contentIdB)]
    ∧ (AffiliateProgramService.process_link url (.ok (title, imgs))
        [.error { msg := errA }, .ok contentIdB]).channel_errors_logged = [0]
    ∧ (AffiliateProgramService.process_link url (.ok (title, imgs))
        [.error { msg := errA }, .ok contentIdB]).link_error_logged = none
    ∧ (AffiliateProgramService.process_link url (.ok (title, imgs))
        [.error { msg := errA }, .ok contentIdB]).ledger_writes
      = [{ url := url, channelContentId := none }] :=
  ⟨rfl, rfl, rfl, rfl, rfl⟩

/-! ## Pinterest bulk CSV creation (`pinterest_service.py`) -/

namespace PinterestService

/-- `self.BULK_CREATE_LIMIT` with the default constructor argument
(pinterest_service.py:21,33). -/
def BULK_CREATE_LIMIT : Nat := 30

/-- One row accumulated in `csv_data`, keyed by the fields the loop reads
back (`row["Title"]` may be the Python `None` when `get_title` returned
`None`). -/
structure BulkRow where
  title : Option String
  link : String
deriving DecidableEq, Repr

/-- The per-link loop of `get_bulk_create_from_affiliate_links_csv`
(pinterest_service.py:78-122).  `title_of l` is the outcome of
`self.get_title(affiliate_link=l, limit=100)` (`.error` = the iteration
raised, caught at line 118-122 and skipped); `row_ok l t` states whether
`get_csv_row_data` returned truthy row data (a falsy row and a raising row
both `continue`).  A row is appended unless the limit is reached, the title
repeats an accumulated Title, the title repeats an existing pin title, or the
url repeats an existing pin link. -/
def bulk_loop (pin_titles pin_links : List String)
    (title_of : AffiliateLink → Except PyErr (Option String))
    (row_ok : AffiliateLink → Option String → Bool) :
    List AffiliateLink → List BulkRow → List BulkRow
  | [], csv_data => csv_data
  | l :: rest, csv_data =>
    if BULK_CREATE_LIMIT ≤ csv_data.length then csv_data
    else
      match title_of l with
      | .error _ => bulk_loop pin_titles pin_links title_of row_ok rest csv_data
      | .ok title =>
        if csv_data.any fun row => row.title == title then
          bulk_loop pin_titles pin_links title_of row_ok rest csv_data
        else if (match title with
                 | some t => pin_titles.contains t
                 | none => false) || pin_links.contains l.url then
          bulk_loop pin_titles pin_links title_of row_ok rest csv_data
        else if row_ok l title then
          bulk_loop pin_titles pin_links title_of row_ok rest
            (csv_data ++ [{ title := title, link := l.url }])
        else bulk_loop pin_titles pin_links title_of row_ok rest csv_data

/-- Result of `get_bulk_create_from_affiliate_links_csv`: the accumulated
rows, the urls committed as used, and whether the early `return` for "no
unused affiliate links" fired. -/
structure BulkResult where
  csv_rows : List BulkRow
  committed_urls : List String
  early_return : Bool
deriving DecidableEq, Repr

/-- `PinterestService.get_bulk_create_from_affiliate_links_csv`
(pinterest_service.py:59-133).  `load` drives the unused filter (note a
raising load yields the falsy `False`, also triggering the early return);
`csv_ok` states whether `batch_generate_csv` returned a non-empty path list.
On success the commit builds `UsedLink(url=link.url)` for
`affiliate_links[: len(csv_data)]` — a prefix of the ORIGINAL argument, not
the links whose rows were actually written (line 126-130). -/
def get_bulk_create_from_affiliate_links_csv
    (affiliate_links : List AffiliateLink) (skipUsedCheck : Bool)
    (load : Except PyErr (List String))
    (pin_titles pin_links : List String)
    (title_of : AffiliateLink → Except PyErr (Option String))
    (row_ok : AffiliateLink → Option String → Bool)
    (csv_ok : Bool) : BulkResult :=
  let unused_links := if skipUsedCheck then .links affiliate_links
    else MediaService.get_unused_affiliate_links affiliate_links load
  match unused_links with
  | .pyFalse => { csv_rows := [], committed_urls := [], early_return := true }
  | .links [] => { csv_rows := [], committed_urls := [], early_return := true }
  | .links unused =>
    let csv_data := bulk_loop pin_titles pin_links title_of row_ok unused []
    if csv_ok then
      { csv_rows := csv_data
        committed_urls := (affiliate_links.take csv_data.length).map fun l => l.url
        early_return := false }
    else { csv_rows := csv_data, committed_urls := [], early_return := false }

end PinterestService

/-! ## Theorem for claim C10 -/

/-- **C10 (implicit), confirmed.**  When CSV generation succeeds, the urls
recorded as used are exactly those of the first `len(csv_data)` elements of
the original `affiliate_links` argument — independent of which links actually
produced rows.  The concrete instance shows the divergence: `L1` is skipped
(already pinned) and `L2`'s row is written, yet `L1.url` is committed and
`L2.url` is not. -/
theorem C10_commit_slice :
    (∀ (affiliate_links : List AffiliateLink) (skipUsedCheck : Bool)
        (load : Except PyErr (List String)) (pin_titles pin_links : List String)
        (title_of : AffiliateLink → Except PyErr (Option String))
        (row_ok : AffiliateLink → Option String → Bool),
      (PinterestService.get_bulk_create_from_affiliate_links_csv affiliate_links
          skipUsedCheck load pin_titles pin_links title_of row_ok true).committed_urls
        = (affiliate_links.take
            (PinterestService.get_bulk_create_from_affiliate_links_csv affiliate_links
              skipUsedCheck load pin_titles pin_links title_of row_ok true).csv_rows.length).map
            fun l => l.url)
    ∧ (PinterestService.get_bulk_create_from_affiliate_links_csv
          [{ url := "http://x/1", product_title := "p1", categories := ["c"] },
           { url := "http://x/2", product_title := "p2", categories := ["c"] }]
          true (.ok []) [] ["http://x/1"]
          (fun l => .ok (some ("T " ++ l.url))) (fun _ _ => true) true).committed_urls
        = ["http://x/1"]
    ∧ (PinterestService.get_bulk_create_from_affiliate_links_csv
          [{ url := "http://x/1", product_title := "p1", categories := ["c"] },
           { url := "http://x/2", product_title := "p2", categories := ["c"] }]
          true (.ok []) [] ["http://x/1"]
          (fun l => .ok (some ("T " ++ l.url))) (fun _ _ => true) true).csv_rows
        = [{ title := some "T http://x/2", link := "http://x/2" }] := by
  refine ⟨?_, rfl, rfl⟩
  intro affiliate_links skipUsedCheck load pin_titles pin_links title_of row_ok
  unfold PinterestService.get_bulk_create_from_affiliate_links_csv
  dsimp only
  split
  · rfl
  · rfl
  · simp

/-! ## Theorems for claims C5, C6 -/

/-- **C5, confirmed.**  With `max_retries=3, initial_delay=2, max_delay=30` and
every invocation failing with a retryable error, the wrapped function is
invoked 3 times (hence at most 4), each sleep delay equals
`min(initial_delay * 2^(attempt-1) + jitter, max_delay)` for the 1-based
failure count `attempt`, and with jitter drawn from `[0, 1)` the delay
sequence is non-decreasing (it never reaches the 30s cap here). -/
theorem C5_backoff_bounds {α : Type} (retryable : PyErr → Bool) (jitter : Nat → ℚ)
    (call : Nat → Except PyErr α)
    (hfail : ∀ k, ∃ e, call k = .error e ∧ retryable e = true)
    (hjitter : ∀ a, 0 ≤ jitter a ∧ jitter a < 1) :
    (Utils.get_with_retry 3 2 30 retryable none jitter call).calls = 3
    ∧ (Utils.get_with_retry 3 2 30 retryable none jitter call).calls ≤ 4
    ∧ (Utils.get_with_retry 3 2 30 retryable none jitter call).delays
        = [min (2 * 2 ^ (1 - 1) + jitter 1) 30, min (2 * 2 ^ (2 - 1) + jitter 2) 30]
    ∧ List.Chain' (· ≤ ·) (Utils.get_with_retry 3 2 30 retryable none jitter call).delays := by
  obtain ⟨e0, he0, hr0⟩ := hfail 0
  obtain ⟨e1, he1, hr1⟩ := hfail 1
  obtain ⟨e2, he2, hr2⟩ := hfail 2
  have htrace : Utils.get_with_retry 3 2 30 retryable none jitter call
      = { outcome := .raised e2, calls := 3,
          delays := [min (2 * 2 ^ (1 - 1) + jitter 1) 30,
            min (2 * 2 ^ (2 - 1) + jitter 2) 30] } := by
    rw [Utils.get_with_retry, Utils.retry_loop, he0, Utils.retry_loop, he1,
      Utils.retry_loop, he2]
    norm_num [hr0, hr1, hr2]
  rw [htrace]
  refine ⟨rfl, by norm_num, rfl, ?_⟩
  have h1 := hjitter 1
  have h2 := hjitter 2
  simp only [List.chain'_cons, List.chain'_singleton, and_true]
  exact min_le_min (by norm_num; linarith [h1.2, h2.1]) le_rfl

/-- **C5, witness.**  The bounds at a concrete always-failing call with
constant jitter 1/2. -/
theorem C5_backoff_bounds_witness :
    (Utils.get_with_retry 3 2 30 (fun _ => true) none (fun _ => (1/2 : ℚ))
        (fun _ => .error { msg := "timeout" } : Nat → Except PyErr (List String))).calls = 3
    ∧ (Utils.get_with_retry 3 2 30 (fun _ => true) none (fun _ => (1/2 : ℚ))
        (fun _ => .error { msg := "timeout" } : Nat → Except PyErr (List String))).calls ≤ 4
    ∧ (Utils.get_with_retry 3 2 30 (fun _ => true) none (fun _ => (1/2 : ℚ))
        (fun _ => .error { msg := "timeout" } : Nat → Except PyErr (List String))).delays
        = [min (2 * 2 ^ (1 - 1) + (1/2 : ℚ)) 30, min (2 * 2 ^ (2 - 1) + (1/2 : ℚ)) 30]
    ∧ List.Chain' (· ≤ ·)
        (Utils.get_with_retry 3 2 30 (fun _ => true) none (fun _ => (1/2 : ℚ))
          (fun _ => .error { msg := "timeout" } : Nat → Except PyErr (List String))).delays :=
  C5_backoff_bounds (fun _ => true) (fun _ => (1/2 : ℚ))
    (fun _ => .error { msg := "timeout" })
    (fun _ => ⟨{ msg := "timeout" }, rfl, rfl⟩)
    (fun _ => by norm_num)

/-- **C6, code evaluation (code bug).**  `MediaService.fetch_image_urls` is
decorated with `retry_on_empty=True` and the comment "Retry on empty image
lists", but `utils.get_with_retry` declares no such keyword (the decoration
raises `TypeError`), and the wrapper body has no empty-result handling at all:
a call whose first invocation succeeds with the empty list is returned
immediately — one invocation, no sleep, no retry. -/
theorem C6_code_eval :
    (Utils.get_with_retry 3 2 30 (fun _ => true) none (fun _ => (0 : ℚ))
        (fun _ => .ok ([] : List String))).outcome = .ok []
    ∧ (Utils.get_with_retry 3 2 30 (fun _ => true) none (fun _ => (0 : ℚ))
        (fun _ => .ok ([] : List String))).calls = 1
    ∧ (Utils.get_with_retry 3 2 30 (fun _ => true) none (fun _ => (0 : ℚ))
        (fun _ => .ok ([] : List String))).delays = []
    ∧ "retry_on_empty" ∉ Utils.get_with_retry_keywords := by
  have h : Utils.get_with_retry 3 2 30 (fun _ => true) none (fun _ => (0 : ℚ))
      (fun _ => .ok ([] : List String))
      = { outcome := .ok [], calls := 1, delays := [] } := by
    rw [Utils.get_with_retry, Utils.retry_loop]
    norm_num
  rw [h]
  exact ⟨rfl, rfl, rfl, by decide⟩

end AffiliateAutomation
